import Mathlib

/-!
Verification development for the TableMage repository.

Part 1 embeds `src/tabularmagic/_src/ml/discriminative/classification/
base_classification.py` (the `BaseClassification` class: `__init__`,
`specify_data`, `fit`).  Part 2 embeds `src/tablemage/agents/_src/tools/
data_tools.py` (the agent tool adapter functions).

Data matrices and label vectors are abstracted as lists of integers: every
claim under study is about control flow, aliasing and bookkeeping, never
about numeric values, so the element type is irrelevant as long as it is
concrete and decidable.  Python attribute absence (`hasattr`) is modelled
with `Option`-valued method fields, Python exceptions with an explicit
`FitResult.raised` constructor carrying the state at the moment the
exception propagates, and Python's mutation of `self` with explicit state
passing.
-/

set_option autoImplicit false

namespace TableMage

/-- A data matrix (`numpy` 2-d array abstraction). -/
abbrev DataMat := List (List Int)

/-- A label / score vector (`numpy` 1-d array abstraction). -/
abbrev LabelVec := List Int

/-- A confidence-score payload: either a `predict_proba` matrix or a
`decision_function` vector. -/
inductive ScoreVal where
  | proba (p : DataMat)
  | decision (d : LabelVec)
  deriving DecidableEq, Repr

/-- The `y_pred` / `y_true` argument passed to `ClassificationScorer`:
a single array (single-split mode) or a list of per-fold arrays
(cross-validation mode). -/
inductive LabelField where
  | one (v : LabelVec)
  | many (vs : List LabelVec)
  deriving DecidableEq, Repr

/-- The `y_pred_score` argument passed to `ClassificationScorer`:
Python `None`, a single score payload, or a list of per-fold payloads. -/
inductive ScoreField where
  | noneVal
  | one (s : ScoreVal)
  | many (ss : List ScoreVal)
  deriving DecidableEq, Repr

/-- Number of per-fold arrays in a `LabelField`, when it is the
cross-validation shape. -/
def LabelField.count : LabelField → Option Nat
  | .one _ => none
  | .many vs => some vs.length

/-- The `ClassificationScorer` constructor arguments (the scorer's metric
computations are external; the record keeps exactly what `fit` passes in). -/
structure ClassificationScorer where
  y_pred : LabelField
  y_true : LabelField
  y_pred_score : ScoreField
  y_pred_class_order : LabelVec
  name : String
  deriving DecidableEq, Repr

/-- An sklearn estimator: `predict` always exists; `predict_proba` and
`decision_function` may be absent (`hasattr` is `Option.isSome`). -/
structure Estimator where
  predict : DataMat → LabelVec
  predict_proba : Option (DataMat → DataMat)
  decision_function : Option (DataMat → LabelVec)
  classes_ : LabelVec

/-- The hyperparameter searcher: `fit(X, y)` followed by reading
`best_estimator` is modelled as a pure function from the training data to
the selected estimator. -/
structure HyperparameterSearcher where
  search : DataMat → LabelVec → Estimator

/-- A `DataHandler` as consumed by `fit`: it owns a train split and a test
split, each a function of the `dropfirst` flag. -/
structure DataHandler where
  df_train_split : Bool → DataMat × LabelVec
  df_test_split : Bool → DataMat × LabelVec

/-- The handler passed into `specify_data`, with the two factory methods
`fit` never calls directly. -/
structure RawHandler where
  copy : String → List String → DataHandler
  foldCopy : Nat → Nat → String → List String → Nat → DataHandler

/-- Modelled from the spec: `DataHandler.kfold_copies` lives in
`datahandler.py`, which is not under `src/`.  The spec says the handler is
"optionally sharded into k train/test fold copies for nested
cross-validation" and that `specify_data` with `outer_cv=k` "populates
exactly k fold-wise data handlers": one fold copy per fold index,
`k` folds in total. -/
def RawHandler.kfold_copies (rh : RawHandler) (k : Nat) (y_var : String)
    (X_vars : List String) (seed : Nat) : List DataHandler :=
  (List.range k).map (fun i => rh.foldCopy k i y_var X_vars seed)

/-- The mutable fields of a `BaseClassification` object. -/
structure ModelState where
  _hyperparam_searcher : Option HyperparameterSearcher
  _estimator : Option Estimator
  _datahandler : Option DataHandler
  _datahandlers : Option (List DataHandler)
  _name : String
  train_scorer : Option ClassificationScorer
  train_overall_scorer : Option ClassificationScorer
  test_scorer : Option ClassificationScorer
  _dropfirst : Bool

/-- `BaseClassification.__init__`. -/
def initState : ModelState where
  _hyperparam_searcher := none
  _estimator := none
  _datahandler := none
  _datahandlers := none
  _name := "BaseRegression"
  train_scorer := none
  train_overall_scorer := none
  test_scorer := none
  _dropfirst := false

/-- `BaseClassification.specify_data`: always overwrites `_datahandler`
with a copy; overwrites `_datahandlers` only when `outer_cv` is not
`None`. -/
def specify_data (s : ModelState) (datahandler : RawHandler) (y_var : String)
    (X_vars : List String) (outer_cv : Option Nat) (outer_cv_seed : Nat) :
    ModelState :=
  let s1 : ModelState := { s with _datahandler := some (datahandler.copy y_var X_vars) }
  match outer_cv with
  | none => s1
  | some k =>
    { s1 with _datahandlers := some (datahandler.kfold_copies k y_var X_vars outer_cv_seed) }

/-- Python exceptions that `fit` can propagate. -/
inductive PyError where
  | valueError (msg : String)
  | attributeError (msg : String)
  | unboundLocalError (localName : String)
  deriving DecidableEq, Repr

/-- The configuration error raised at the end of `fit`'s branch chain. -/
def configError : PyError := PyError.valueError "Error occured in fit method."

/-- Outcome of a `fit` call: normal return with the new state, or an
exception propagating with the state as mutated up to the raise point. -/
inductive FitResult where
  | ok (s : ModelState)
  | raised (e : PyError) (s : ModelState)

/-- The object state after a `fit` call, whether it returned or raised. -/
def FitResult.finalState : FitResult → ModelState
  | .ok s => s
  | .raised _ s => s

/-- The object state after a `fit` call that returned normally. -/
def FitResult.okState : FitResult → Option ModelState
  | .ok s => some s
  | .raised _ _ => none

/-- Lines 73-76 / 163-166: prefer `predict_proba`, else `decision_function`,
else leave the local unassigned (`none`). -/
def estScore (est : Estimator) (X : DataMat) : Option ScoreVal :=
  match est.predict_proba with
  | some f => some (ScoreVal.proba (f X))
  | none =>
    match est.decision_function with
    | some g => some (ScoreVal.decision (g X))
    | none => none

/-- Lines 137-140: the score for the "train, no CV" scorer checks and uses
`fold_estimator.predict_proba`, but falls back to
`self._estimator.decision_function` (by then the refit estimator). -/
def overallScore (fold_estimator refit : Estimator) (X : DataMat) : Option ScoreVal :=
  match fold_estimator.predict_proba with
  | some f => some (ScoreVal.proba (f X))
  | none =>
    match refit.decision_function with
    | some g => some (ScoreVal.decision (g X))
    | none => none

/-- Accumulators of the per-fold loop (lines 88-113), plus the value the
loop variable `fold_estimator` holds after the loop. -/
structure CvAcc where
  y_preds : List LabelVec
  y_trues : List LabelVec
  y_pred_scores : List ScoreVal
  lastEstimator : Option Estimator

/-- The per-fold loop, lines 92-113.  `preEst` is `self._estimator` as it
stood when `fit` was entered: the loop never assigns `self._estimator`, and
line 111's fallback reads it (`hasattr(None, ...)` is `False`, so a `none`
pre-estimator silently skips the score). -/
def cvLoop (searcher : HyperparameterSearcher) (preEst : Option Estimator)
    (dropfirst : Bool) : List DataHandler → CvAcc
  | [] => ⟨[], [], [], none⟩
  | fdh :: rest =>
    let trainSplit := fdh.df_train_split dropfirst
    let testSplit := fdh.df_test_split dropfirst
    let fold_estimator := searcher.search trainSplit.1 trainSplit.2
    let y_pred := fold_estimator.predict testSplit.1
    let scoreHere : List ScoreVal :=
      match fold_estimator.predict_proba with
      | some f => [ScoreVal.proba (f testSplit.1)]
      | none =>
        match preEst with
        | some e =>
          match e.decision_function with
          | some g => [ScoreVal.decision (g testSplit.1)]
          | none => []
        | none => []
    let acc := cvLoop searcher preEst dropfirst rest
    ⟨y_pred :: acc.y_preds, testSplit.2 :: acc.y_trues,
      scoreHere ++ acc.y_pred_scores,
      some (acc.lastEstimator.getD fold_estimator)⟩

/-- The test scorer built at lines 168-174, as a function of the estimator,
the data handler, the drop-first flag and the model name (the only state
`fit`'s test section reads). -/
def testScorerOf (est : Estimator) (dh : DataHandler) (dropfirst : Bool)
    (name : String) : ClassificationScorer :=
  let testSplit := dh.df_test_split dropfirst
  { y_pred := LabelField.one (est.predict testSplit.1)
    y_true := LabelField.one testSplit.2
    y_pred_score :=
      match estScore est testSplit.1 with
      | some sc => ScoreField.one sc
      | none => ScoreField.noneVal
    y_pred_class_order := est.classes_
    name := name ++ "_test" }

/-- Lines 154-174: test-set scoring, shared by both branches.  Here
`y_pred_score` is initialised to `None` before the `hasattr` chain, so a
missing score is legitimate. -/
def testSection (s : ModelState) : FitResult :=
  match s._datahandler with
  | none => .raised (PyError.attributeError "NoneType object has no attribute df_test_split") s
  | some dh =>
    match s._estimator with
    | none => .raised (PyError.attributeError "NoneType object has no attribute predict") s
    | some est =>
      .ok { s with test_scorer := some (testScorerOf est dh s._dropfirst s._name) }

/-- Lines 63-85: the single-split branch.  When the selected estimator has
neither `predict_proba` nor `decision_function`, the local `y_pred_score`
is never assigned and line 82 raises `UnboundLocalError` — after
`self._estimator` has already been overwritten (line 69). -/
def fitSingle (s : ModelState) (dh : DataHandler) : FitResult :=
  let trainSplit := dh.df_train_split s._dropfirst
  match s._hyperparam_searcher with
  | none => .raised (PyError.attributeError "NoneType object has no attribute fit") s
  | some searcher =>
    let est := searcher.search trainSplit.1 trainSplit.2
    let s1 : ModelState := { s with _estimator := some est }
    let y_pred := est.predict trainSplit.1
    match estScore est trainSplit.1 with
    | none => .raised (PyError.unboundLocalError "y_pred_score") s1
    | some sc =>
      testSection { s1 with train_scorer := some {
        y_pred := LabelField.one y_pred
        y_true := LabelField.one trainSplit.2
        y_pred_score := ScoreField.one sc
        y_pred_class_order := est.classes_
        name := s._name ++ "_train" } }

/-- Lines 87-148: the cross-validation branch.  With an empty fold list the
loop body never runs and line 119/123 reads the unassigned loop variable
`fold_estimator`; with a `None` searcher and a nonempty fold list the first
iteration's `self._hyperparam_searcher.fit` raises `AttributeError`.  After
the loop, the refit happens on the full training split; the "train, no CV"
score then mixes `fold_estimator` (probabilities) with the refit estimator
(decision-function fallback), and, like the single-split branch, raises
`UnboundLocalError` when neither is available. -/
def fitCV (s : ModelState) (dh : DataHandler) (dhs : List DataHandler) : FitResult :=
  match s._hyperparam_searcher with
  | none =>
    match dhs with
    | [] => .raised (PyError.unboundLocalError "fold_estimator") s
    | _ :: _ => .raised (PyError.attributeError "NoneType object has no attribute fit") s
  | some searcher =>
    let acc := cvLoop searcher s._estimator s._dropfirst dhs
    match acc.lastEstimator with
    | none => .raised (PyError.unboundLocalError "fold_estimator") s
    | some fold_estimator =>
      let scoresField : ScoreField :=
        if acc.y_pred_scores.length = 0 then ScoreField.noneVal
        else ScoreField.many acc.y_pred_scores
      let s1 : ModelState := { s with train_scorer := some {
        y_pred := LabelField.many acc.y_preds
        y_true := LabelField.many acc.y_trues
        y_pred_score := scoresField
        y_pred_class_order := fold_estimator.classes_
        name := s._name ++ "_train_cv" } }
      let trainSplit := dh.df_train_split s._dropfirst
      let refit := searcher.search trainSplit.1 trainSplit.2
      let s2 : ModelState := { s1 with _estimator := some refit }
      let y_pred := refit.predict trainSplit.1
      match overallScore fold_estimator refit trainSplit.1 with
      | none => .raised (PyError.unboundLocalError "y_pred_score") s2
      | some sc =>
        testSection { s2 with train_overall_scorer := some {
          y_pred := LabelField.one y_pred
          y_true := LabelField.one trainSplit.2
          y_pred_score := ScoreField.one sc
          y_pred_class_order := refit.classes_
          name := s._name ++ "_train_no_cv" } }

/-- `BaseClassification.fit`, lines 58-174. -/
def fit (s : ModelState) : FitResult :=
  match s._datahandlers, s._datahandler with
  | none, some dh => fitSingle s dh
  | some dhs, some dh => fitCV s dh dhs
  | _, none => .raised configError s

/-- The branch `fit` takes, read off the same condition as the source's
`if`/`elif`/`else` chain on `_datahandlers` and `_datahandler`. -/
inductive FitBranch where
  | single
  | cv
  | config_error
  deriving DecidableEq, Repr

/-- Branch selection of `fit` (lines 63, 87, 151). -/
def fitBranch (s : ModelState) : FitBranch :=
  match s._datahandlers, s._datahandler with
  | none, some _ => FitBranch.single
  | some _, some _ => FitBranch.cv
  | _, none => FitBranch.config_error

/-- States reachable through the class interface: construction, setting the
searcher (done by subclass constructors), `specify_data`, and `fit`
(whether it returns or raises). -/
inductive Reachable : ModelState → Prop where
  | init : Reachable initState
  | set_searcher (s : ModelState) (hs : HyperparameterSearcher) :
      Reachable s → Reachable { s with _hyperparam_searcher := some hs }
  | specify (s : ModelState) (rh : RawHandler) (y_var : String)
      (X_vars : List String) (cv : Option Nat) (seed : Nat) :
      Reachable s → Reachable (specify_data s rh y_var X_vars cv seed)
  | fit_step (s : ModelState) : Reachable s → Reachable (fit s).finalState

/-! ## Agent tool adapters (`src/tablemage/agents/_src/tools/data_tools.py`)

The adapter bodies below are translated from the source; the collaborators
they call (`ToolingContext` trace methods, `VariableInfo`, the query
engine) live in files that are not under `src/` and are modelled from the
spec where their behaviour matters, as flagged in the doc comments.
Python's in-place mutation of the shared context is modelled by returning
the updated context next to the function's string result. -/

/-- The response object of the external pandas query engine: the adapter
reads two metadata fields and stringifies the response. -/
structure QueryResponse where
  pandas_instruction_str : String
  raw_pandas_output : String
  response_str : String
  deriving DecidableEq, Repr

/-- A dataframe, abstracted to the one attribute the summary tool reads. -/
structure DFrame where
  shape : Nat × Nat
  deriving DecidableEq, Repr

/-- The analyzer's data handler, as read by the dataset-summary tool. -/
structure AgentDataHandler where
  df_train : DFrame
  df_test : DFrame
  categorical_vars : List String
  numeric_vars : List String
  deriving DecidableEq, Repr

/-- The variable-description registry.  The concrete class is not under
`src/`; per the spec it is a "mapping from variable name to free-text
description", modelled as an association list where the newest entry for a
name shadows older ones. -/
structure VariableInfo where
  descriptions : List (String × String)
  deriving DecidableEq, Repr

/-- Modelled from the spec: `VariableInfo.get_description` is not under
`src/`.  The registry is "read by get calls", and the get tool's
description states "If no description is available, an empty string will
be returned." -/
def VariableInfo.get_description (vi : VariableInfo) (var : String) : String :=
  (List.lookup var vi.descriptions).getD ""

/-- Modelled from the spec: `VariableInfo.set_description` is not under
`src/`.  The registry is "mutated by explicit set calls" — a
dictionary-style write of the description under the variable name. -/
def VariableInfo.set_description (vi : VariableInfo) (var description : String) :
    VariableInfo :=
  { descriptions := (var, description) :: vi.descriptions }

/-- The analyzer, abstracted to its `datahandler()` accessor. -/
structure Analyzer where
  datahandler : AgentDataHandler

/-- The shared data container: analyzer, query engine, variable registry. -/
structure DataContainer where
  analyzer : Analyzer
  pd_query_engine : String → QueryResponse
  variable_info : VariableInfo

/-- The `n_rows` / `n_vars` / variable-count record the summary tool builds
for each of the train and test splits. -/
structure ShapeDict where
  n_rows : Nat
  n_vars : Nat
  n_categorical_vars : Nat
  n_numeric_vars : Nat
  deriving DecidableEq, Repr

/-- The structured dictionary the dataset-summary tool records. -/
structure SummaryDict where
  train_shape : ShapeDict
  test_shape : ShapeDict
  numeric_vars : List String
  categorical_vars : List String
  deriving DecidableEq, Repr

/-- One entry of the append-only explainability trace: a thought, a code
snippet, or a structured dictionary. -/
inductive TraceEntry where
  | thought (t : String)
  | code (c : String)
  | dict (d : SummaryDict)
  deriving DecidableEq, Repr

/-- The shared tooling context: the data container plus the trace log. -/
structure ToolingContext where
  _data_container : DataContainer
  trace : List TraceEntry

/-- Modelled from the spec: `ToolingContext.add_thought` is not under
`src/`; the spec describes the trace as an append-only log of thoughts. -/
def ToolingContext.add_thought (ctx : ToolingContext) (t : String) : ToolingContext :=
  { ctx with trace := ctx.trace ++ [TraceEntry.thought t] }

/-- Modelled from the spec: `ToolingContext.add_code` is not under `src/`;
the spec describes the trace as an append-only log of code snippets. -/
def ToolingContext.add_code (ctx : ToolingContext) (c : String) : ToolingContext :=
  { ctx with trace := ctx.trace ++ [TraceEntry.code c] }

/-- Modelled from the spec: `ToolingContext.add_dict` is not under `src/`;
the spec says the summary tool "records them as one structured entry,
returning a handle to it". -/
def ToolingContext.add_dict (ctx : ToolingContext) (d : SummaryDict) :
    String × ToolingContext :=
  ("dict_" ++ toString ctx.trace.length,
    { ctx with trace := ctx.trace ++ [TraceEntry.dict d] })

/-- Modelled from the spec: `tooling_decorator` (in `tooling_utils.py`, not
under `src/`) is described only as handling cross-cutting concerns "not
detailed here"; no trace append of its own is specified, so the wrapper is
modelled as the identity. -/
def tooling_decorator {α : Type} (f : α) : α := f

/-- `_pandas_query_function`, lines 16-27. -/
def _pandas_query_function : String → ToolingContext → String × ToolingContext :=
  tooling_decorator fun query context =>
    let context := context.add_thought
      ("I am going to write and run Python code to answer the query: " ++ query ++ ".")
    let context := context.add_code "df = analyzer.df_all()"
    let response := context._data_container.pd_query_engine query
    let context := context.add_code response.pandas_instruction_str
    let context := context.add_thought
      ("The output of the query is:\n" ++ response.raw_pandas_output ++ ".")
    (response.response_str, context)

/-- `_dataset_summary_function`, lines 54-91. -/
def _dataset_summary_function : ToolingContext → String × ToolingContext :=
  tooling_decorator fun context =>
    let context := context.add_thought
      ("I am going to obtain a summary of the dataset, which includes the shape of the training and test datasets, "
        ++ "as well as the numeric and categorical variables in the dataset.")
    let context := context.add_code "analyzer.shape('train')"
    let context := context.add_code "analyzer.shape('test')"
    let context := context.add_code "analyzer.numeric_vars()"
    let context := context.add_code "analyzer.categorical_vars()"
    let dhdl := context._data_container.analyzer.datahandler
    let output_dict : SummaryDict := {
      train_shape := {
        n_rows := dhdl.df_train.shape.1
        n_vars := dhdl.df_train.shape.2
        n_categorical_vars := dhdl.categorical_vars.length
        n_numeric_vars := dhdl.numeric_vars.length }
      test_shape := {
        n_rows := dhdl.df_test.shape.1
        n_vars := dhdl.df_test.shape.2
        n_categorical_vars := dhdl.categorical_vars.length
        n_numeric_vars := dhdl.numeric_vars.length }
      numeric_vars := dhdl.numeric_vars
      categorical_vars := dhdl.categorical_vars }
    context.add_dict output_dict

/-- `_get_variable_description_function`, lines 110-112. -/
def _get_variable_description_function : String → ToolingContext → String × ToolingContext :=
  tooling_decorator fun var context =>
    (context._data_container.variable_info.get_description var, context)

/-- `_set_variable_description_function`, lines 131-136. -/
def _set_variable_description_function :
    String → String → ToolingContext → String × ToolingContext :=
  tooling_decorator fun var description context =>
    let context := { context with _data_container :=
      { context._data_container with variable_info :=
        context._data_container.variable_info.set_description var description } }
    ("Description of variable " ++ var ++ " has been set to: " ++ description ++ ".",
      context)

/-- Overwrite only the three scorer fields of a state (used to express
that `fit`'s scorer outputs are independent of previously stored
scorers). -/
def setScorers (s : ModelState) (a b c : Option ClassificationScorer) : ModelState :=
  { s with train_scorer := a, train_overall_scorer := b, test_scorer := c }

/-! ## Concrete fixtures for witnesses and counterexamples -/

/-- A constant-function data handler. -/
def dhConst (train test : DataMat × LabelVec) : DataHandler where
  df_train_split := fun _ => train
  df_test_split := fun _ => test

def matA : DataMat := [[1]]

def matB : DataMat := [[2]]

def vecA : LabelVec := [0]

def vecB : LabelVec := [1]

/-- Handler used as a cross-validation fold: trains on `matA`. -/
def dhFold : DataHandler := dhConst (matA, vecA) (matB, vecB)

/-- Handler used as the full training split: trains on `matB`. -/
def dhFull : DataHandler := dhConst (matB, vecB) (matA, vecA)

/-- An estimator with neither `predict_proba` nor `decision_function`. -/
def bareEstimator : Estimator where
  predict := fun _ => vecA
  predict_proba := none
  decision_function := none
  classes_ := vecA

/-- A searcher that always selects `bareEstimator`. -/
def bareSearcher : HyperparameterSearcher where
  search := fun _ _ => bareEstimator

/-- A searcher whose estimator "remembers" its training data: its
`predict_proba` output is the training matrix itself, so two estimators
selected from different training splits are observably different. -/
def tagSearcher : HyperparameterSearcher where
  search := fun X y =>
    { predict := fun _ => y
      predict_proba := some (fun _ => X)
      decision_function := none
      classes_ := y }

/-- A searcher whose estimators expose only `decision_function`. -/
def decSearcher : HyperparameterSearcher where
  search := fun _ y =>
    { predict := fun _ => y
      predict_proba := none
      decision_function := some (fun _ => [7])
      classes_ := y }

/-- A raw handler whose copy is `dhFull` and whose fold copies are
`dhFold`. -/
def rh0 : RawHandler where
  copy := fun _ _ => dhFull
  foldCopy := fun _ _ _ _ _ => dhFold

/-- Single-split state with the bare searcher. -/
def stateBare : ModelState :=
  { initState with
    _hyperparam_searcher := some bareSearcher
    _datahandler := some dhFold }

/-- Cross-validation state with the bare searcher. -/
def stateBareCV : ModelState :=
  { stateBare with _datahandlers := some [dhFold] }

/-- Cross-validation state with the tagging searcher: the fold trains on
`matA`, the full split on `matB`. -/
def stateTag : ModelState :=
  { initState with
    _hyperparam_searcher := some tagSearcher
    _datahandler := some dhFull
    _datahandlers := some [dhFold] }

/-- First-fit cross-validation state with the decision-function-only
searcher (`_estimator` still `None`). -/
def stateDec : ModelState :=
  { initState with
    _hyperparam_searcher := some decSearcher
    _datahandler := some dhFull
    _datahandlers := some [dhFold] }

/-- A concrete tooling context: empty registry, empty trace. -/
def ctx0 : ToolingContext where
  _data_container :=
    { analyzer := { datahandler :=
        { df_train := { shape := (3, 2) }
          df_test := { shape := (1, 2) }
          categorical_vars := ["c"]
          numeric_vars := ["n"] } }
      pd_query_engine := fun q =>
        { pandas_instruction_str := "df.head()"
          raw_pandas_output := q
          response_str := q }
      variable_info := { descriptions := [] } }
  trace := []

/-! ## Shared lemmas -/

theorem testSection_finalState_fields (s : ModelState) :
    (testSection s).finalState.train_scorer = s.train_scorer ∧
    (testSection s).finalState.train_overall_scorer = s.train_overall_scorer ∧
    (testSection s).finalState._datahandler = s._datahandler ∧
    (testSection s).finalState._datahandlers = s._datahandlers ∧
    (testSection s).finalState._estimator = s._estimator ∧
    (testSection s).finalState._hyperparam_searcher = s._hyperparam_searcher := by
  obtain ⟨hs, est, dh, dhs, nm, ts, tos, tes, df⟩ := s
  cases dh <;> cases est <;> simp [testSection, FitResult.finalState]

theorem testSection_raised_attr (s : ModelState) (e : PyError) (s' : ModelState)
    (h : testSection s = FitResult.raised e s') : ∃ m, e = PyError.attributeError m := by
  obtain ⟨hs, est, dh, dhs, nm, ts, tos, tes, df⟩ := s
  cases dh <;> cases est <;> simp [testSection] at h <;> exact ⟨_, h.1.symm⟩

theorem fitSingle_raised_not_value (s : ModelState) (dh : DataHandler) (e : PyError)
    (s' : ModelState) (h : fitSingle s dh = FitResult.raised e s') :
    ∀ m, e ≠ PyError.valueError m := by
  intro m hm
  subst hm
  unfold fitSingle at h
  try simp only [] at h
  split at h
  · simp_all
  · try simp only [] at h
    split at h
    · simp_all
    · exact absurd (testSection_raised_attr _ _ _ h) (by simp)

theorem fitCV_raised_not_value (s : ModelState) (dh : DataHandler)
    (dhs : List DataHandler) (e : PyError) (s' : ModelState)
    (h : fitCV s dh dhs = FitResult.raised e s') :
    ∀ m, e ≠ PyError.valueError m := by
  intro m hm
  subst hm
  unfold fitCV at h
  split at h
  · split at h <;> simp_all
  · try simp only [] at h
    split at h
    · simp_all
    · try simp only [] at h
      split at h
      · simp_all
      · exact absurd (testSection_raised_attr _ _ _ h) (by simp)

theorem fit_config_of_no_handler (s : ModelState) (hdh : s._datahandler = none) :
    fit s = FitResult.raised configError s := by
  unfold fit
  cases hdhs : s._datahandlers <;> simp [hdh, hdhs]

theorem fit_raised_value_inv (s : ModelState) (m : String) (s' : ModelState)
    (h : fit s = FitResult.raised (PyError.valueError m) s') :
    s._datahandler = none ∧ s' = s ∧ PyError.valueError m = configError := by
  unfold fit at h
  split at h
  · exact absurd rfl (fitSingle_raised_not_value _ _ _ _ h m)
  · exact absurd rfl (fitCV_raised_not_value _ _ _ _ _ h m)
  · rename_i heq
    cases h
    exact ⟨by assumption, rfl, rfl⟩

theorem fitSingle_finalState_handlers (s : ModelState) (dh : DataHandler) :
    (fitSingle s dh).finalState._datahandler = s._datahandler ∧
    (fitSingle s dh).finalState._datahandlers = s._datahandlers := by
  unfold fitSingle
  try simp only []
  split
  · simp [FitResult.finalState]
  · try simp only []
    split
    · simp [FitResult.finalState]
    · exact ⟨(testSection_finalState_fields _).2.2.1,
        (testSection_finalState_fields _).2.2.2.1⟩

theorem fitCV_finalState_handlers (s : ModelState) (dh : DataHandler)
    (dhs : List DataHandler) :
    (fitCV s dh dhs).finalState._datahandler = s._datahandler ∧
    (fitCV s dh dhs).finalState._datahandlers = s._datahandlers := by
  unfold fitCV
  split
  · split <;> simp [FitResult.finalState]
  · try simp only []
    split
    · simp [FitResult.finalState]
    · try simp only []
      split
      · simp [FitResult.finalState]
      · exact ⟨(testSection_finalState_fields _).2.2.1,
          (testSection_finalState_fields _).2.2.2.1⟩

theorem fit_finalState_handlers (s : ModelState) :
    (fit s).finalState._datahandler = s._datahandler ∧
    (fit s).finalState._datahandlers = s._datahandlers := by
  unfold fit
  split
  · exact fitSingle_finalState_handlers _ _
  · exact fitCV_finalState_handlers _ _ _
  · simp [FitResult.finalState]

/-- Interface invariant: whenever a fold list is present, a single data
handler is present as well (every `specify_data` call sets the latter). -/
theorem reachable_handler_inv (s : ModelState) (h : Reachable s) :
    s._datahandlers ≠ none → s._datahandler ≠ none := by
  induction h with
  | init => simp [initState]
  | set_searcher s hs _ ih => exact ih
  | specify s rh y_var X_vars cv seed _ _ =>
      cases cv <;> simp [specify_data]
  | fit_step s _ ih =>
      have hp := fit_finalState_handlers s
      rw [hp.1, hp.2]
      exact ih

theorem cvLoop_lengths (searcher : HyperparameterSearcher) (preEst : Option Estimator)
    (dropfirst : Bool) (dhs : List DataHandler) :
    (cvLoop searcher preEst dropfirst dhs).y_preds.length = dhs.length ∧
    (cvLoop searcher preEst dropfirst dhs).y_trues.length = dhs.length := by
  induction dhs with
  | nil => simp [cvLoop]
  | cons fdh rest ih => simp [cvLoop, ih.1, ih.2]

theorem cvLoop_lastEstimator_isSome (searcher : HyperparameterSearcher)
    (preEst : Option Estimator) (dropfirst : Bool) (fdh : DataHandler)
    (rest : List DataHandler) :
    (cvLoop searcher preEst dropfirst (fdh :: rest)).lastEstimator.isSome := by
  simp [cvLoop]

theorem testSection_ok_char (s : ModelState) (s' : ModelState)
    (h : testSection s = FitResult.ok s') :
    ∃ dh est, s._datahandler = some dh ∧ s._estimator = some est ∧
      s' = { s with test_scorer := some (testScorerOf est dh s._dropfirst s._name) } := by
  obtain ⟨hs, est, dh, dhs, nm, ts, tos, tes, df⟩ := s
  cases dh <;> cases est <;> simp_all [testSection]

theorem fitCV_train_counts (s : ModelState) (dh : DataHandler)
    (dhs : List DataHandler) (searcher : HyperparameterSearcher)
    (hhs : s._hyperparam_searcher = some searcher) (hne : dhs ≠ []) :
    ((fitCV s dh dhs).finalState.train_scorer).map
      (fun sc => (sc.y_pred.count, sc.y_true.count)) =
      some (some dhs.length, some dhs.length) := by
  unfold fitCV
  rw [hhs]
  try simp only []
  split
  · rename_i heq
    obtain ⟨fdh, rest, rfl⟩ : ∃ fdh rest, dhs = fdh :: rest := by
      cases dhs with
      | nil => exact absurd rfl hne
      | cons fdh rest => exact ⟨fdh, rest, rfl⟩
    have hsome := cvLoop_lastEstimator_isSome searcher s._estimator s._dropfirst fdh rest
    rw [heq] at hsome
    simp at hsome
  · try simp only []
    split
    · simp [FitResult.finalState, LabelField.count,
        (cvLoop_lengths searcher s._estimator s._dropfirst dhs).1,
        (cvLoop_lengths searcher s._estimator s._dropfirst dhs).2]
    · rw [(testSection_finalState_fields _).1]
      simp [LabelField.count,
        (cvLoop_lengths searcher s._estimator s._dropfirst dhs).1,
        (cvLoop_lengths searcher s._estimator s._dropfirst dhs).2]

/-! ## Claims -/

/-- C1: the claim says that when the selected estimator has neither
`predict_proba` nor `decision_function`, `fit` completes in both modes
with scorers built from labels only.  The code instead leaves the local
`y_pred_score` unassigned on the train-scorer paths and raises
`UnboundLocalError` (single-split mode at the line-79 scorer call, and
cross-validation mode at the line-142 scorer call after the refit), even
though the test-scorer path correctly defaults the score to `None`.  This
theorem evaluates `fit` at such an estimator in both modes and shows the
raise. -/
theorem C1_labels_only_scoring_bug :
    fit stateBare =
      FitResult.raised (PyError.unboundLocalError "y_pred_score")
        { stateBare with _estimator := some bareEstimator } ∧
    fit stateBareCV =
      FitResult.raised (PyError.unboundLocalError "y_pred_score")
        { stateBareCV with
            train_scorer := some {
              y_pred := LabelField.many [vecA]
              y_true := LabelField.many [vecB]
              y_pred_score := ScoreField.noneVal
              y_pred_class_order := vecA
              name := "BaseRegression" ++ "_train_cv" }
            _estimator := some bareEstimator } :=
  ⟨rfl, rfl⟩

/-- C2: over every state reachable through the class interface, `fit`
raises the configuration `ValueError` exactly when neither a single data
handler nor a fold-handler list is present, and never after
`specify_data` has been called. -/
theorem C2_config_error_iff (s : ModelState) (h : Reachable s) :
    ((∃ s', fit s = FitResult.raised configError s') ↔
      (s._datahandler = none ∧ s._datahandlers = none)) ∧
    ∀ (rh : RawHandler) (y_var : String) (X_vars : List String)
      (cv : Option Nat) (seed : Nat),
      ¬ ∃ s', fit (specify_data s rh y_var X_vars cv seed) =
        FitResult.raised configError s' := by
  constructor
  · constructor
    · rintro ⟨s', hr⟩
      have hinv := fit_raised_value_inv s "Error occured in fit method." s' hr
      refine ⟨hinv.1, ?_⟩
      cases hdhs : s._datahandlers with
      | none => rfl
      | some l =>
          exact absurd hinv.1 (reachable_handler_inv s h (by simp [hdhs]))
    · rintro ⟨hdh, _⟩
      exact ⟨s, fit_config_of_no_handler s hdh⟩
  · rintro rh y_var X_vars cv seed ⟨s', hr⟩
    have hinv := fit_raised_value_inv _ "Error occured in fit method." s' hr
    have hdh := hinv.1
    cases cv <;> simp [specify_data] at hdh

/-- Witness for C2 at the freshly constructed state. -/
theorem C2_config_error_iff_witness :
    (∃ s', fit initState = FitResult.raised configError s') ↔
      (initState._datahandler = none ∧ initState._datahandlers = none) :=
  (C2_config_error_iff initState Reachable.init).1

/-- C3: the claim says the estimator refit on the full training split is
the one used for both the test scorer's and the "train, no CV" scorer's
predictions/scores.  With a searcher whose estimators' `predict_proba`
output is their own training matrix, the fold trains on `matA` and the
full split on `matB`: the test scorer's score indeed comes from the refit
estimator (`matB`), but the "train, no CV" scorer's score comes from the
last fold's estimator (`matA`) — source line 137-138 reads
`fold_estimator`, not the refit `self._estimator`. -/
theorem C3_overall_score_uses_fold_estimator :
    ((fit stateTag).okState.bind (fun st => st.train_overall_scorer)).map
      (fun sc => sc.y_pred_score) =
        some (ScoreField.one (ScoreVal.proba matA)) ∧
    ((fit stateTag).okState.bind (fun st => st.test_scorer)).map
      (fun sc => sc.y_pred_score) =
        some (ScoreField.one (ScoreVal.proba matB)) ∧
    matA ≠ matB :=
  ⟨rfl, rfl, by decide⟩

/-- C4: the claim says a fold's fallback decision-function scores come
from that fold's estimator.  Source line 111-113 instead checks and uses
`self._estimator`; on a first fit that attribute is still `None`, so even
though every fold estimator exposes `decision_function`, no score is
accumulated at all and the aggregate train scorer's `y_pred_score` is
`None`. -/
theorem C4_fold_decision_fallback_ignored :
    ((decSearcher.search matA vecA).decision_function).isSome = true ∧
    ((fit stateDec).okState.bind (fun st => st.train_scorer)).map
      (fun sc => sc.y_pred_score) = some ScoreField.noneVal :=
  ⟨rfl, rfl⟩

/-- C5: `specify_data` with `outer_cv = k` (k positive) stores exactly `k`
fold-wise handlers, and the following `fit` takes the cross-validation
branch and aggregates exactly `k` per-fold prediction arrays and `k`
true-label arrays into the train scorer. -/
theorem C5_outer_cv_k_folds (s : ModelState) (rh : RawHandler) (y_var : String)
    (X_vars : List String) (k seed : Nat) (searcher : HyperparameterSearcher)
    (hk : 0 < k) (hhs : s._hyperparam_searcher = some searcher) :
    ((specify_data s rh y_var X_vars (some k) seed)._datahandlers).map
      List.length = some k ∧
    fitBranch (specify_data s rh y_var X_vars (some k) seed) = FitBranch.cv ∧
    ((fit (specify_data s rh y_var X_vars (some k) seed)).finalState.train_scorer).map
      (fun sc => (sc.y_pred.count, sc.y_true.count)) = some (some k, some k) := by
  have hlen : (rh.kfold_copies k y_var X_vars seed).length = k := by
    simp [RawHandler.kfold_copies]
  refine ⟨?_, ?_, ?_⟩
  · simp [specify_data, hlen]
  · simp [specify_data, fitBranch]
  · have hne : rh.kfold_copies k y_var X_vars seed ≠ [] := by
      intro hnil
      rw [hnil] at hlen
      simp at hlen
      omega
    have hhs' : (specify_data s rh y_var X_vars (some k) seed)._hyperparam_searcher =
        some searcher := by
      simp [specify_data, hhs]
    have hfit : fit (specify_data s rh y_var X_vars (some k) seed) =
        fitCV (specify_data s rh y_var X_vars (some k) seed) (rh.copy y_var X_vars)
          (rh.kfold_copies k y_var X_vars seed) := by
      unfold fit
      simp [specify_data]
    rw [hfit,
      fitCV_train_counts _ _ _ searcher hhs' hne, hlen]

/-- Witness for C5 with two folds. -/
theorem C5_outer_cv_k_folds_witness :
    0 < 2 ∧
    (((specify_data { initState with _hyperparam_searcher := some tagSearcher }
        rh0 "y" ["x"] (some 2) 42)._datahandlers).map List.length = some 2 ∧
      fitBranch (specify_data { initState with _hyperparam_searcher := some tagSearcher }
        rh0 "y" ["x"] (some 2) 42) = FitBranch.cv ∧
      ((fit (specify_data { initState with _hyperparam_searcher := some tagSearcher }
          rh0 "y" ["x"] (some 2) 42)).finalState.train_scorer).map
        (fun sc => (sc.y_pred.count, sc.y_true.count)) = some (some 2, some 2)) :=
  ⟨by decide,
    C5_outer_cv_k_folds { initState with _hyperparam_searcher := some tagSearcher }
      rh0 "y" ["x"] 2 42 tagSearcher (by decide) rfl⟩

/-- C6 counterexample: starting from a state produced by a prior
`specify_data` with `outer_cv = 2`, a `specify_data` call with
`outer_cv = None` leaves the old fold list in place (source line 53-55
only assigns `_datahandlers` when `outer_cv is not None`), and the
subsequent `fit` takes the cross-validation branch (its train scorer is
the `_train_cv` one), refuting the claim's "regardless of what the state
was before the call". -/
theorem C6_outer_cv_none_counterexample :
    (specify_data
        (specify_data { initState with _hyperparam_searcher := some tagSearcher }
          rh0 "y" ["x"] (some 2) 42)
        rh0 "y" ["x"] none 42)._datahandlers ≠ none ∧
    fitBranch (specify_data
        (specify_data { initState with _hyperparam_searcher := some tagSearcher }
          rh0 "y" ["x"] (some 2) 42)
        rh0 "y" ["x"] none 42) = FitBranch.cv ∧
    ((fit (specify_data
        (specify_data { initState with _hyperparam_searcher := some tagSearcher }
          rh0 "y" ["x"] (some 2) 42)
        rh0 "y" ["x"] none 42)).finalState.train_scorer).map
      (fun sc => sc.name) = some ("BaseRegression" ++ "_train_cv") := by
  refine ⟨?_, rfl, rfl⟩
  intro hnone
  simp [specify_data] at hnone

/-- C6 amended: `specify_data` with `outer_cv = None` always leaves the
fold-list field exactly as it was; hence when no fold list was present
before the call (for example on a fresh model) the fold list is `None`
afterwards and `fit` takes the single-split branch.  A fold list left by
an earlier `specify_data` with `outer_cv` set persists instead. -/
theorem C6_outer_cv_none_amended (s : ModelState) (rh : RawHandler)
    (y_var : String) (X_vars : List String) (seed : Nat) :
    (specify_data s rh y_var X_vars none seed)._datahandlers = s._datahandlers ∧
    (s._datahandlers = none →
      (specify_data s rh y_var X_vars none seed)._datahandlers = none ∧
      fitBranch (specify_data s rh y_var X_vars none seed) = FitBranch.single) := by
  refine ⟨by simp [specify_data], fun hnone => ⟨by simp [specify_data, hnone], ?_⟩⟩
  simp [specify_data, fitBranch, hnone]

/-- Witness for C6's amended claim at the fresh state. -/
theorem C6_outer_cv_none_amended_witness :
    initState._datahandlers = none ∧
    ((specify_data initState rh0 "y" ["x"] none 42)._datahandlers =
        initState._datahandlers ∧
      (initState._datahandlers = none →
        (specify_data initState rh0 "y" ["x"] none 42)._datahandlers = none ∧
        fitBranch (specify_data initState rh0 "y" ["x"] none 42) =
          FitBranch.single)) :=
  ⟨rfl, C6_outer_cv_none_amended initState rh0 "y" ["x"] 42⟩

/-- C7: setting a variable's description and then getting it returns
exactly the string that was set, and getting the description of a
variable that was never set (no registry entry) returns the empty
string. -/
theorem C7_description_roundtrip (ctx : ToolingContext) (var desc : String) :
    (_get_variable_description_function var
      (_set_variable_description_function var desc ctx).2).1 = desc ∧
    (List.lookup var ctx._data_container.variable_info.descriptions = none →
      (_get_variable_description_function var ctx).1 = "") := by
  constructor
  · simp [_get_variable_description_function, _set_variable_description_function,
      tooling_decorator, VariableInfo.get_description, VariableInfo.set_description,
      List.lookup]
  · intro hnone
    simp [_get_variable_description_function, tooling_decorator,
      VariableInfo.get_description, hnone]

/-- Witness for C7 at a concrete context and the spec's example strings. -/
theorem C7_description_roundtrip_witness :
    List.lookup "age" ctx0._data_container.variable_info.descriptions = none ∧
    ((_get_variable_description_function "age"
        (_set_variable_description_function "age" "years since birth" ctx0).2).1 =
        "years since birth" ∧
      (List.lookup "age" ctx0._data_container.variable_info.descriptions = none →
        (_get_variable_description_function "age" ctx0).1 = "")) :=
  ⟨rfl, C7_description_roundtrip ctx0 "age" "years since birth"⟩

/-- C9 counterexample: the get-variable-description adapter's body (source
lines 110-112) performs only the registry read and returns — it appends
no trace entry at all, refuting "every agent tool-adapter call appends at
least one trace entry". -/
theorem C9_trace_counterexample :
    ¬ ∃ l, l ≠ [] ∧
      ((_get_variable_description_function "age" ctx0).2).trace =
        ctx0.trace ++ l := by
  rintro ⟨l, hne, hl⟩
  simp [_get_variable_description_function, tooling_decorator, ctx0] at hl
  exact hne hl

/-- C9 amended: the pandas-query and dataset-summary adapters append at
least one trace entry (thoughts, code, or a structured dictionary) during
execution; the get- and set-variable-description adapters append none —
their only effect beyond the return value is the registry read/write. -/
theorem C9_trace_appends_amended :
    (∀ (q : String) (ctx : ToolingContext), ∃ l, l ≠ [] ∧
      ((_pandas_query_function q ctx).2).trace = ctx.trace ++ l) ∧
    (∀ ctx : ToolingContext, ∃ l, l ≠ [] ∧
      ((_dataset_summary_function ctx).2).trace = ctx.trace ++ l) ∧
    (∀ (var : String) (ctx : ToolingContext),
      ((_get_variable_description_function var ctx).2).trace = ctx.trace) ∧
    (∀ (var desc : String) (ctx : ToolingContext),
      ((_set_variable_description_function var desc ctx).2).trace = ctx.trace) := by
  refine ⟨?_, ?_, fun var ctx => rfl, fun var desc ctx => rfl⟩
  · intro q ctx
    refine ⟨[TraceEntry.thought
        ("I am going to write and run Python code to answer the query: " ++ q ++ "."),
      TraceEntry.code "df = analyzer.df_all()",
      TraceEntry.code (ctx._data_container.pd_query_engine q).pandas_instruction_str,
      TraceEntry.thought
        ("The output of the query is:\n"
          ++ (ctx._data_container.pd_query_engine q).raw_pandas_output ++ ".")],
      by simp, ?_⟩
    simp [_pandas_query_function, tooling_decorator, ToolingContext.add_thought,
      ToolingContext.add_code, List.append_assoc]
  · intro ctx
    refine ⟨[TraceEntry.thought
        ("I am going to obtain a summary of the dataset, which includes the shape of the training and test datasets, "
          ++ "as well as the numeric and categorical variables in the dataset."),
      TraceEntry.code "analyzer.shape('train')",
      TraceEntry.code "analyzer.shape('test')",
      TraceEntry.code "analyzer.numeric_vars()",
      TraceEntry.code "analyzer.categorical_vars()",
      TraceEntry.dict {
        train_shape := {
          n_rows := ctx._data_container.analyzer.datahandler.df_train.shape.1
          n_vars := ctx._data_container.analyzer.datahandler.df_train.shape.2
          n_categorical_vars := ctx._data_container.analyzer.datahandler.categorical_vars.length
          n_numeric_vars := ctx._data_container.analyzer.datahandler.numeric_vars.length }
        test_shape := {
          n_rows := ctx._data_container.analyzer.datahandler.df_test.shape.1
          n_vars := ctx._data_container.analyzer.datahandler.df_test.shape.2
          n_categorical_vars := ctx._data_container.analyzer.datahandler.categorical_vars.length
          n_numeric_vars := ctx._data_container.analyzer.datahandler.numeric_vars.length }
        numeric_vars := ctx._data_container.analyzer.datahandler.numeric_vars
        categorical_vars := ctx._data_container.analyzer.datahandler.categorical_vars }],
      by simp, ?_⟩
    simp [_dataset_summary_function, tooling_decorator, ToolingContext.add_thought,
      ToolingContext.add_code, ToolingContext.add_dict, List.append_assoc]

/-- C8: in each successful `fit` call, every scorer field the mode
provides (train and test scorers in single-split mode; train, "train, no
CV" and test scorers in cross-validation mode) is assigned in that call
(`≠ none` afterwards), and its value is independent of whatever scorer
objects were stored before the call: overwriting all three stored scorers
with arbitrary values before `fit` changes none of the scorers `fit`
produces.  In this functional embedding scorers are immutable values, so
no code can mutate them after `fit` returns. -/
theorem C8_scorers_fresh (s : ModelState) (a b c : Option ClassificationScorer)
    (s' : ModelState) (h : fit s = FitResult.ok s') :
    ∃ s'', fit (setScorers s a b c) = FitResult.ok s'' ∧
      s''.train_scorer = s'.train_scorer ∧ s'.train_scorer ≠ none ∧
      s''.test_scorer = s'.test_scorer ∧ s'.test_scorer ≠ none ∧
      (s._datahandlers ≠ none →
        s''.train_overall_scorer = s'.train_overall_scorer ∧
        s'.train_overall_scorer ≠ none) := by
  obtain ⟨hsF, estF, dhF, dhsF, nmF, tsF, tosF, tesF, dfF⟩ := s
  cases dhsF with
  | none =>
    cases dhF with
    | none => simp [fit] at h
    | some dh =>
      cases hsF with
      | none => simp [fit, fitSingle] at h
      | some searcher =>
        simp only [fit, fitSingle, setScorers] at h ⊢
        split at h
        · exact absurd h (by simp)
        · rename_i sc hsc
          simp only [testSection] at h ⊢
          simp only [FitResult.ok.injEq] at h
          subst h
          exact ⟨_, rfl, by simp⟩
  | some dhs =>
    cases dhF with
    | none => simp [fit] at h
    | some dh =>
      cases hsF with
      | none =>
        cases dhs with
        | nil => simp [fit, fitCV] at h
        | cons d rest => simp [fit, fitCV] at h
      | some searcher =>
        simp only [fit, fitCV, setScorers] at h ⊢
        split at h
        · exact absurd h (by simp)
        · rename_i fe hfe
          try simp only [] at h ⊢
          split at h
          · exact absurd h (by simp)
          · rename_i sc hsc
            simp only [testSection] at h ⊢
            simp only [FitResult.ok.injEq] at h
            subst h
            exact ⟨_, rfl, by simp⟩

/-- Witness for C8 at a concrete cross-validation fit that succeeds. -/
theorem C8_scorers_fresh_witness :
    ∃ s'', fit (setScorers stateTag none none none) = FitResult.ok s'' ∧
      s''.train_scorer = (fit stateTag).finalState.train_scorer ∧
      (fit stateTag).finalState.train_scorer ≠ none ∧
      s''.test_scorer = (fit stateTag).finalState.test_scorer ∧
      (fit stateTag).finalState.test_scorer ≠ none ∧
      (stateTag._datahandlers ≠ none →
        s''.train_overall_scorer = (fit stateTag).finalState.train_overall_scorer ∧
        (fit stateTag).finalState.train_overall_scorer ≠ none) :=
  C8_scorers_fresh stateTag none none none (fit stateTag).finalState rfl

/-- C10: whenever `fit` raises the configuration `ValueError`, the model
state at the moment the exception propagates is exactly the state before
the call — nothing was assigned on that path (the raise is the first
statement of the `else` branch). -/
theorem C10_config_error_atomic (s s' : ModelState) (m : String)
    (h : fit s = FitResult.raised (PyError.valueError m) s') : s' = s :=
  (fit_raised_value_inv s m s' h).2.1

/-- Witness for C10: the fresh state raises the configuration error and is
returned unchanged. -/
theorem C10_config_error_atomic_witness :
    fit initState = FitResult.raised configError initState ∧
      initState = initState :=
  ⟨rfl, C10_config_error_atomic initState initState "Error occured in fit method." rfl⟩

end TableMage
